import Mathlib

/-!
Verification of the TigerASI protocol engine (`tigerasi/tiger_controller.py`,
`tigerasi/device_codes.py`) against its natural-language specification.

The development shallowly embeds the protocol engine in Lean:
* the device vocabulary (command keywords and the device error-code table),
* the reply decoder (`check_reply_for_errors`),
* the transaction engine (`send` with its skipped-reply drain loop),
* the topology resolver (`_get_axis_to_card_mapping`, the lettered/numeric
  axis partition),
* the session-state machines (`setup_scan`, `scanr`, `scanv`, `start_scan`,
  `setup_array_scan`, `setup_ring_buffer`) and the wire-line encoder
  (`_set_cmd_args_and_kwds`).

Serial transport is modelled as an explicit state: a list of wire lines
written so far plus a list of reply units available to be read.  Device
round trips whose replies feed back into the computation (axis ids from
`Z2B`, encoder ticks from `CNTS`) are modelled by oracle parameters carrying
the decoded reply value; the corresponding query line is still recorded.
Python floating-point formatting/rounding of numeric parameter values is
abstracted by passing already-formatted strings where the exact numeral does
not matter to any property proved here.
-/

namespace TigerASI

/-! ## Device vocabulary (`device_codes.py`) -/

/-- The `ErrorCodes` enumeration: member name paired with its wire value. -/
def errorCodeTable : List (String × String) :=
  [("UNKNOWN_CMD", ":N-1"),
   ("UNRECOGNIZED_AXIS_PARAMETER", ":N-2"),
   ("MISSING_PARAMETERS", ":N-3"),
   ("PARAMETER_OUT_OF_RANGE", ":N-4"),
   ("OPERATION_FAILED", ":N-5"),
   ("UNDEFINED_ERROR", ":N-6"),
   ("INVALID_CARD_ADDRESS", ":N-7"),
   ("RESERVED_8", ":N-8"),
   ("RESERVED_9", ":N-9"),
   ("RESERVED_10", ":N-10"),
   ("FILTERWHEEL_RESERVED_11", ":N-11"),
   ("FILTERWHEEL_RESERVED_12", ":N-12"),
   ("FILTERWHEEL_RESERVED_13", ":N-13"),
   ("FILTERWHEEL_RESERVED_14", ":N-14"),
   ("FILTERWHEEL_RESERVED_15", ":N-15"),
   ("FILTERWHEEL_RESERVED_16", ":N-16"),
   ("FILTERWHEEL_RESERVED_17", ":N-17"),
   ("FILTERWHEEL_RESERVED_18", ":N-18"),
   ("FILTERWHEEL_RESERVED_19", ":N-19"),
   ("FILTERWHEEL_RESERVED_20", ":N-20"),
   ("SERIAL_CMD_HALTED", ":N-21")]

/-- The fault taxonomy: each constructor mirrors the Python exception class
raised by the source at the corresponding program point. -/
inductive Fault where
  | deviceError (name : String) (code : String)
  | runtimeError (msg : String)
  | usageError (msg : String)
  | assertionError (msg : String)
  | keyError (key : String)
  | valueError (msg : String)
deriving DecidableEq

/-! ## Reply decoder -/

/-- Python `s.upper()` for the ASCII strings used as axis names and flags. -/
def pyUpper (s : String) : String := ⟨s.data.map Char.toUpper⟩

/-- A reply-terminator character, as in Python `rstrip` with charset CR LF. -/
def isReplyTerm (c : Char) : Bool := c = '\r' || c = '\n'

/-- Python `s.rstrip` with the CR LF charset: drop trailing terminator
characters. -/
def rstripCRLF (s : String) : String :=
  ⟨(s.data.reverse.dropWhile isReplyTerm).reverse⟩

/-- Model of `TigerController.check_reply_for_errors`: if the trimmed reply text is the
wire value of a device error code, report that table entry (the source raises
an exception naming the matched enum member); otherwise `none`. -/
def check_reply_for_errors (reply : String) : Option (String × String) :=
  errorCodeTable.find? (fun p => p.2 == rstripCRLF reply)

/-! ## Transaction engine (`TigerController.send`) -/

/-- Transport-facing state of the transaction engine: the
`skipped_replies` counter, the reply units available to be read (in arrival
order), and the wire lines written so far. -/
structure TxState where
  skipped : Int
  buffer : List String
  written : List String
deriving DecidableEq

/-- The drain loop inside `send` (`while True: ...`): read one reply unit,
run the error check, and while the skipped counter is nonzero treat the unit
as a previously-skipped reply (decrement and continue); otherwise the unit is
the return value.  An exhausted buffer corresponds to a read that can never
complete. -/
def readReplyLoop (skipped : Int) : List String → Except Fault (String × Int × List String)
  | [] => .error (.runtimeError "transport exhausted")
  | u :: rest =>
    match check_reply_for_errors u with
    | some e => .error (.deviceError e.1 e.2)
    | none =>
      if skipped ≠ 0 then readReplyLoop (skipped - 1) rest
      else .ok (u, skipped, rest)

/-- Model of `TigerController.send(cmd_str, wait)`: always write the line; with
`wait = false` increment `skipped_replies` and return no reply; with
`wait = true` run the drain loop and return its reply. -/
def send (s : TxState) (cmd_str : String) (wait : Bool) :
    Except Fault (Option String × TxState) :=
  let s1 : TxState := { s with written := s.written ++ [cmd_str] }
  if wait then
    match readReplyLoop s1.skipped s1.buffer with
    | .ok (reply, sk, rest) => .ok (some reply, { s1 with skipped := sk, buffer := rest })
    | .error f => .error f
  else
    .ok (none, { s1 with skipped := s1.skipped + 1 })

/-- A sequence of fire-and-forget sends (`wait = false`). -/
def sendFireAndForget (s : TxState) : List String → TxState
  | [] => s
  | l :: ls =>
    match send s l false with
    | .ok (_, s1) => sendFireAndForget s1 ls
    | .error _ => s

/-- The value of the `skipped_replies` counter at the start of each iteration
of the drain loop of `readReplyLoop` (same control flow). -/
def drainCounterTrace (skipped : Int) : List String → List Int
  | [] => []
  | u :: rest =>
    match check_reply_for_errors u with
    | some _ => [skipped]
    | none =>
      if skipped ≠ 0 then skipped :: drainCounterTrace (skipped - 1) rest
      else [skipped]

/-! ## Transaction-engine lemmas -/

theorem send_wait_false (s : TxState) (l : String) :
    send s l false = .ok (none, ⟨s.skipped + 1, s.buffer, s.written ++ [l]⟩) := by
  simp [send]

theorem sendFireAndForget_spec (ls : List String) : ∀ s : TxState,
    sendFireAndForget s ls = ⟨s.skipped + ls.length, s.buffer, s.written ++ ls⟩ := by
  induction ls with
  | nil => intro s; simp [sendFireAndForget]
  | cons l ls ih =>
    intro s
    rw [sendFireAndForget, send_wait_false]
    dsimp only
    rw [ih]
    simp only [TxState.mk.injEq, List.length_cons]
    refine ⟨by push_cast; ring, by simp, by simp⟩

theorem readReplyLoop_clean (k : Nat) : ∀ (buf : List String) (hlen : k < buf.length),
    (∀ u ∈ buf.take (k+1), check_reply_for_errors u = none) →
    readReplyLoop (k : Int) buf = .ok (buf.get ⟨k, hlen⟩, 0, buf.drop (k+1)) := by
  induction k with
  | zero =>
    intro buf hlen hclean
    match buf with
    | [] => simp at hlen
    | u :: rest =>
      have hu : check_reply_for_errors u = none := hclean u (by simp)
      simp [readReplyLoop, hu]
  | succ n ih =>
    intro buf hlen hclean
    match buf with
    | [] => simp at hlen
    | u :: rest =>
      have hu : check_reply_for_errors u = none := hclean u (by simp)
      have h2 : ((n + 1 : Nat) : Int) ≠ 0 := by omega
      have h3 : ((n + 1 : Nat) : Int) - 1 = (n : Int) := by push_cast; ring
      have hlen2 : n < rest.length := by simpa using hlen
      rw [readReplyLoop]
      simp only [hu, h2, ne_eq, not_false_eq_true, if_true, h3]
      rw [ih rest hlen2 (fun v hv => hclean v (by simp [List.take_succ_cons]; tauto))]
      simp

theorem drainCounterTrace_clean (k : Nat) : ∀ buf : List String, k < buf.length →
    (∀ u ∈ buf.take (k+1), check_reply_for_errors u = none) →
    drainCounterTrace (k : Int) buf = (List.range (k+1)).reverse.map Int.ofNat := by
  induction k with
  | zero =>
    intro buf hlen hclean
    match buf with
    | [] => simp at hlen
    | u :: rest =>
      have hu : check_reply_for_errors u = none := hclean u (by simp)
      simp [drainCounterTrace, hu, List.range_succ]
  | succ n ih =>
    intro buf hlen hclean
    match buf with
    | [] => simp at hlen
    | u :: rest =>
      have hu : check_reply_for_errors u = none := hclean u (by simp)
      have h2 : ((n + 1 : Nat) : Int) ≠ 0 := by omega
      have h3 : ((n + 1 : Nat) : Int) - 1 = (n : Int) := by push_cast; ring
      have hlen2 : n < rest.length := by simpa using hlen
      rw [drainCounterTrace]
      simp only [hu, h2, ne_eq, not_false_eq_true, if_true, h3]
      rw [ih rest hlen2 (fun v hv => hclean v (by simp [List.take_succ_cons]; tauto))]
      rw [List.range_succ (n := n + 1)]
      simp [Int.ofNat_eq_coe]

/-- C1: for `k` fire-and-forget sends followed by one blocking send starting
from a drained engine, every line is written immediately and the counter has
been incremented once per send; the blocking send reads `k+1` reply units,
discards the first `k`, returns the last one, and leaves the counter at `0`;
during the drain the counter steps down by exactly one per drained reply and
is never negative. -/
theorem transaction_engine_fifo_drain (k : Nat) (lines : List String) (bl : String)
    (buf : List String) (hlen : k < buf.length) (hlines : lines.length = k)
    (hclean : ∀ u ∈ buf.take (k+1), check_reply_for_errors u = none) :
    (∀ i, i ≤ k →
      sendFireAndForget ⟨0, buf, []⟩ (lines.take i) = ⟨(i : Int), buf, lines.take i⟩) ∧
    send (sendFireAndForget ⟨0, buf, []⟩ lines) bl true =
      .ok (some (buf.get ⟨k, hlen⟩), ⟨0, buf.drop (k+1), lines ++ [bl]⟩) ∧
    drainCounterTrace (k : Int) buf = (List.range (k+1)).reverse.map Int.ofNat ∧
    (∀ v ∈ drainCounterTrace (k : Int) buf, 0 ≤ v) := by
  refine ⟨?_, ?_, ?_, ?_⟩
  · intro i hi
    rw [sendFireAndForget_spec]
    have hlen2 : (lines.take i).length = i := by
      rw [List.length_take, hlines]
      omega
    simp [hlen2]
  · rw [sendFireAndForget_spec]
    have hrl := readReplyLoop_clean k buf hlen hclean
    simp [send, hlines, hrl]
  · exact drainCounterTrace_clean k buf hlen hclean
  · intro v hv
    rw [drainCounterTrace_clean k buf hlen hclean] at hv
    simp only [List.mem_map, List.mem_reverse, List.mem_range] at hv
    obtain ⟨n, _, rfl⟩ := hv
    exact Int.ofNat_nonneg n

/-- Closed instance of `transaction_engine_fifo_drain` at `k = 3`. -/
theorem transaction_engine_fifo_drain_witness :
    (∀ i, i ≤ 3 →
      sendFireAndForget ⟨0, ["r0\r\n", "r1\r\n", "r2\r\n", "r3\r\n", "r4\r\n"], []⟩
          (["R X=1\r", "R X=1\r", "R Y=2\r"].take i) =
        ⟨(i : Int), ["r0\r\n", "r1\r\n", "r2\r\n", "r3\r\n", "r4\r\n"],
         ["R X=1\r", "R X=1\r", "R Y=2\r"].take i⟩) ∧
    send (sendFireAndForget ⟨0, ["r0\r\n", "r1\r\n", "r2\r\n", "r3\r\n", "r4\r\n"], []⟩
            ["R X=1\r", "R X=1\r", "R Y=2\r"]) "W X\r" true =
      .ok (some (["r0\r\n", "r1\r\n", "r2\r\n", "r3\r\n", "r4\r\n"].get ⟨3, by decide⟩),
           ⟨0, ["r0\r\n", "r1\r\n", "r2\r\n", "r3\r\n", "r4\r\n"].drop (3+1),
            ["R X=1\r", "R X=1\r", "R Y=2\r"] ++ ["W X\r"]⟩) ∧
    drainCounterTrace ((3 : Nat) : Int) ["r0\r\n", "r1\r\n", "r2\r\n", "r3\r\n", "r4\r\n"] =
      (List.range (3+1)).reverse.map Int.ofNat ∧
    (∀ v ∈ drainCounterTrace ((3 : Nat) : Int)
        ["r0\r\n", "r1\r\n", "r2\r\n", "r3\r\n", "r4\r\n"], 0 ≤ v) :=
  transaction_engine_fifo_drain 3 ["R X=1\r", "R X=1\r", "R Y=2\r"] "W X\r"
    ["r0\r\n", "r1\r\n", "r2\r\n", "r3\r\n", "r4\r\n"]
    (by decide) (by decide) (by decide)

theorem checkReply_matches (entry : String × String) (he : entry ∈ errorCodeTable)
    (u : String) (hu : rstripCRLF u = entry.2) :
    check_reply_for_errors u = some entry := by
  simp only [errorCodeTable] at he
  fin_cases he <;> simp only [check_reply_for_errors, hu] <;> decide

theorem readReplyLoop_error (e : String × String) (u : String)
    (hu : check_reply_for_errors u = some e) :
    ∀ (pre : List String) (sk : Int), (∀ p ∈ pre, check_reply_for_errors p = none) →
    (pre.length : Int) ≤ sk →
    ∀ rest : List String,
      readReplyLoop sk (pre ++ u :: rest) = .error (.deviceError e.1 e.2) := by
  intro pre
  induction pre with
  | nil =>
    intro sk hclean hsk rest
    simp [readReplyLoop, hu]
  | cons p ps ih =>
    intro sk hclean hsk rest
    have hp : check_reply_for_errors p = none := hclean p (by simp)
    have hsk0 : sk ≠ 0 := by
      simp only [List.length_cons] at hsk
      omega
    simp only [List.cons_append]
    rw [readReplyLoop]
    simp only [hp, hsk0, ne_eq, not_false_eq_true, if_true]
    exact ih (sk - 1) (fun q hq => hclean q (by simp [hq]))
      (by simp only [List.length_cons] at hsk; omega) rest

/-- C2: a reply unit whose text, after trimming line terminators, equals the
wire value of any entry of the device error-code table makes the blocking
`send` call fail with a fault identifying that entry — also when the unit is
one of the previously-skipped replies being drained (any number of clean
units may precede it, and the skipped counter may exceed their count). -/
theorem device_error_code_always_faults (entry : String × String)
    (he : entry ∈ errorCodeTable) (u : String) (hu : rstripCRLF u = entry.2)
    (pre rest : List String) (hpre : ∀ p ∈ pre, check_reply_for_errors p = none)
    (sk : Int) (hsk : (pre.length : Int) ≤ sk) (w : List String) (line : String) :
    send ⟨sk, pre ++ u :: rest, w⟩ line true = .error (.deviceError entry.1 entry.2) := by
  have hcheck := checkReply_matches entry he u hu
  simp only [send, if_true]
  rw [readReplyLoop_error entry u hcheck pre sk hpre hsk rest]

/-- Closed instance of `device_error_code_always_faults`: the offending unit
is a skipped reply (one clean unit before it, counter at 2). -/
theorem device_error_code_always_faults_witness :
    send ⟨2, ["ok\r\n"] ++ ":N-4\r\n" :: [":A 10\r\n"], []⟩ "W X\r" true =
      .error (.deviceError "PARAMETER_OUT_OF_RANGE" ":N-4") :=
  device_error_code_always_faults ("PARAMETER_OUT_OF_RANGE", ":N-4") (by decide)
    ":N-4\r\n" (by decide) ["ok\r\n"] [":A 10\r\n"] (by decide) 2 (by decide) [] "W X\r"

/-! ## Controller model: topology, session state, wire-line encoder

`Ctrl` carries the fields of `TigerController` that the high-level commands
read or write.  Card addresses are the hex-address strings parsed out of the
build-configuration reply (the source stores those strings).  `sent` records
the wire lines produced so far, in order.  Faults carry the exception kind
raised at the corresponding source line. -/

structure Ctrl where
  ordered_axes : List String
  axis_to_card : List (String × String × Nat)
  card_modules : List (String × List String)
  scan_card_addr : Option String := none
  scan_fast_axis : Option String := none
  array_scan_card_addr : Option String := none
  rb_axes : List String := []
  sent : List String := []
deriving DecidableEq

/-- Association-list lookup, the model of a Python dict read (`d[k]`);
`none` corresponds to a `KeyError`. Later entries shadow earlier ones are
not needed: updates are modelled by consing, so the first hit is current. -/
def alookup {β : Type} (k : String) : List (String × β) → Option β
  | [] => none
  | (a, b) :: rest => if k = a then some b else alookup k rest

/-- Model of `TigerController._set_cmd_args_and_kwds`: one wire line from an optional
card-address prefix (no separator), the command keyword, the upper-cased
positional flags each preceded by a space, and the `NAME=value` keyword
parameters in insertion order. -/
def set_cmd_args_and_kwds (c : Ctrl) (cmd : String) (args : List String)
    (kwds : List (String × String)) (card_address : Option String) : Ctrl :=
  let card_addr_str := match card_address with
    | some a => a
    | none => ""
  let args_str := String.join (args.map (fun a => " " ++ (pyUpper a)))
  let kwds_str := String.join (kwds.map (fun p => " " ++ (pyUpper p.1) ++ "=" ++ p.2))
  { c with sent := c.sent ++ [card_addr_str ++ cmd ++ args_str ++ kwds_str ++ "\r"] }

/-- Model of `TigerController._has_firmware`: fault unless every requested module name
is in the cached module list of the card. -/
def has_firmware (c : Ctrl) (card_address : String) (modules : List String) :
    Option Fault :=
  match alookup card_address c.card_modules with
  | none => some (.keyError card_address)
  | some mods =>
    let missing := modules.filter (fun m => ! mods.contains m)
    if missing.length ≠ 0 then
      some (.runtimeError ("Error: card 0x" ++ card_address ++
        " cannot execute the specified command because it is missing the following firmware modules"))
    else none

/-! ## Scan state machine (`setup_scan`, `scanr`, `scanv`, `start_scan`) -/

/-- The fault of `setup_scan` when the two axes resolve to different cards. -/
def scanCardMismatchFault : Fault :=
  .runtimeError "Fast and slow axes must be on the same card."

/-- The ordering fault shared by `scanr`, `scanv` and `start_scan` when no
scan card address is recorded. -/
def scanSetupFault : Fault :=
  .runtimeError "Cannot infer the card address for which to apply the sttings. setup_scan must be run first."

/-- Model of `TigerController.setup_scan`.  The two `get_axis_id` round trips of the
success path are modelled by the oracle parameters `fast_id`/`slow_id`
(the decoded `Z2B` replies); their query lines are still recorded.  Note the
source records `_scan_card_addr`/`_scan_fast_axis` before the firmware
check. -/
def setup_scan (c : Ctrl) (fast_axis slow_axis : String) (pattern : Option Nat)
    (fast_id slow_id : Int) : Ctrl × Option Fault :=
  match alookup (pyUpper fast_axis) c.axis_to_card,
        alookup (pyUpper slow_axis) c.axis_to_card with
  | some fc, some sc =>
    if fc.1 = sc.1 then
      let c1 := { c with scan_card_addr := some fc.1, scan_fast_axis := some fast_axis }
      match has_firmware c1 fc.1 ["SCAN MODULE"] with
      | some f => (c1, some f)
      | none =>
        if c1.ordered_axes.contains (pyUpper fast_axis) then
          let c2 := { c1 with sent := c1.sent ++ ["Z2B " ++ (pyUpper fast_axis) ++ "?\r"] }
          if c2.ordered_axes.contains (pyUpper slow_axis) then
            let c3 := { c2 with sent := c2.sent ++ ["Z2B " ++ (pyUpper slow_axis) ++ "?\r"] }
            (set_cmd_args_and_kwds c3 "SCAN" []
              ([("Y", toString fast_id), ("Z", toString slow_id)] ++
               (match pattern with
                | some p => [("F", toString p)]
                | none => [])) (some fc.1), none)
          else (c2, some (.assertionError "Error. Axis does not exist"))
        else (c1, some (.assertionError "Error. Axis does not exist"))
    else (c, some scanCardMismatchFault)
  | _, _ => (c, some (.keyError "axis_to_card"))

/-- The usage fault of `scanr` when `scan_stop_mm` and `num_pixels` are both
given or both omitted. -/
def scanrXorFault : Fault :=
  .usageError "Exclusively either scan_stop_mm or num_pixels (i.e: one or the other, but not both) options must be specified."

/-- Model of `TigerController.scanr`.  The `get_encoder_ticks_per_mm` round trip and
the floating-point pulse-spacing rounding of the success path are modelled by
the oracle parameter `pulse_interval_enc_ticks` (the integer actually sent);
the `CNTS` query line is still recorded. -/
def scanr (c : Ctrl) (scan_start_mm : String) (pulse_interval_enc_ticks : Int)
    (scan_stop_mm : Option String) (num_pixels : Option Int)
    (retrace_speed_percent : Option Int) : Ctrl × Option Fault :=
  if scan_stop_mm.isNone = num_pixels.isNone then
    (c, some scanrXorFault)
  else
    match c.scan_card_addr with
    | none => (c, some scanSetupFault)
    | some addr =>
      let c1 := { c with sent := c.sent ++
        ["CNTS " ++ pyUpper (c.scan_fast_axis.getD "") ++ "?\r"] }
      let kwds := [("X", scan_start_mm), ("Z", toString pulse_interval_enc_ticks)]
        ++ (match scan_stop_mm with
            | some v => [("Y", v)]
            | none => [])
        ++ (match num_pixels with
            | some n => [("F", toString n)]
            | none => [])
        ++ (match retrace_speed_percent with
            | some r => [("R", toString r)]
            | none => [])
      (set_cmd_args_and_kwds c1 "SCANR" [] kwds (some addr), none)

/-- Model of `TigerController.scanv`. -/
def scanv (c : Ctrl) (scan_start_mm scan_stop_mm : String) (line_count : Int)
    (overshoot_time_ms : Option Int) (overshoot_factor : Option String) :
    Ctrl × Option Fault :=
  match c.scan_card_addr with
  | none => (c, some scanSetupFault)
  | some addr =>
    let kwds := [("X", scan_start_mm), ("Y", scan_stop_mm), ("Z", toString line_count)]
      ++ (match overshoot_time_ms with
          | some v => [("F", toString v)]
          | none => [])
      ++ (match overshoot_factor with
          | some v => [("T", v)]
          | none => [])
    (set_cmd_args_and_kwds c "SCANV" [] kwds (some addr), none)

/-- Model of `TigerController.start_scan`: clears the scan session fields and issues
`SCAN S` against the previously recorded card. -/
def start_scan (c : Ctrl) : Ctrl × Option Fault :=
  match c.scan_card_addr with
  | none => (c, some scanSetupFault)
  | some addr =>
    let c1 := { c with scan_card_addr := none, scan_fast_axis := none }
    (set_cmd_args_and_kwds c1 "SCAN" ["S"] [] (some addr), none)

/-! ## Array-scan state machine (`setup_array_scan`, `start_array_scan`) -/

/-- The inference fault of `setup_array_scan` when no explicit card address
is given and the X and Y axes do not resolve to one card (the source message
lacks a space between "be" and "specified"). -/
def arrayScanAmbiguousFault : Fault :=
  .runtimeError "Cannot infer the card address. It must bespecified explicitly."

/-- The part of `setup_array_scan` after the card address is resolved:
record it, check the array firmware module, then issue the `SCAN` pattern,
`AH` start-position and `AR` geometry lines against that card. -/
def array_scan_proceed (c : Ctrl) (addr : String) (x_points y_points : Int)
    (delta_x_mm delta_y_mm theta_deg : String) (x_start_mm y_start_mm : Option String)
    (pattern : Option Nat) : Ctrl × Option Fault :=
  let c1 := { c with array_scan_card_addr := some addr }
  match has_firmware c1 addr ["ARRAY MODULE"] with
  | some f => (c1, some f)
  | none =>
    let c2 := match pattern with
      | some p => set_cmd_args_and_kwds c1 "SCAN" [] [("F", toString p)] (some addr)
      | none => c1
    let start_position :=
      (match x_start_mm with
       | some v => [("X", v)]
       | none => []) ++
      (match y_start_mm with
       | some v => [("Y", v)]
       | none => [])
    let c3 := set_cmd_args_and_kwds c2 "AH" [] start_position (some addr)
    let c4 := set_cmd_args_and_kwds c3 "AR" []
      [("X", toString x_points), ("Y", toString y_points),
       ("Z", delta_x_mm), ("F", delta_y_mm), ("T", theta_deg)] (some addr)
    (c4, none)

/-- Model of `TigerController.setup_array_scan`: with no explicit `card_address`,
infer the single card owning both the X and Y axes, faulting when they live
on two cards; with an explicit address, skip the inference entirely. -/
def setup_array_scan (c : Ctrl) (x_points : Int) (delta_x_mm : String)
    (y_points : Int) (delta_y_mm : String) (theta_deg : String)
    (x_start_mm y_start_mm : Option String) (pattern : Option Nat)
    (card_address : Option String) : Ctrl × Option Fault :=
  match card_address with
  | none =>
    match alookup "X" c.axis_to_card, alookup "Y" c.axis_to_card with
    | some xc, some yc =>
      if xc.1 = yc.1 then
        array_scan_proceed c xc.1 x_points y_points delta_x_mm delta_y_mm theta_deg
          x_start_mm y_start_mm pattern
      else (c, some arrayScanAmbiguousFault)
    | _, _ => (c, some (.keyError "axis_to_card"))
  | some addr =>
    array_scan_proceed c addr x_points y_points delta_x_mm delta_y_mm theta_deg
      x_start_mm y_start_mm pattern

/-! ## Concrete topology used for closed instances -/

/-- A two-card topology: X, Y on card "31" (scan and array firmware
present), Z, W on card "32" (no firmware modules). -/
def demoCtrl : Ctrl :=
  { ordered_axes := ["X", "Y", "Z", "W"],
    axis_to_card := [("X", ("31", 0)), ("Y", ("31", 1)),
                     ("Z", ("32", 0)), ("W", ("32", 1))],
    card_modules := [("31", ["SCAN MODULE", "ARRAY MODULE"]), ("32", [])] }

/-! ## Scan state-machine theorems -/

/-- C3 (counterexample): a `setup_scan` call that fails the firmware
capability check does not leave the scan session fields unchanged — the card
address and fast axis have already been recorded when the fault is raised. -/
theorem setup_scan_state_mutation_counterexample :
    (setup_scan demoCtrl "z" "w" (some 0) 6 7).2.isSome = true ∧
    (setup_scan demoCtrl "z" "w" (some 0) 6 7).1.scan_card_addr ≠
      demoCtrl.scan_card_addr ∧
    (setup_scan demoCtrl "z" "w" (some 0) 6 7).1.scan_fast_axis ≠
      demoCtrl.scan_fast_axis := by
  decide

/-- C3 (amended): `setup_scan` raises the fatal configuration error when the
axes resolve to different cards, leaving the state unchanged; it raises the
fatal capability error when the card lacks the scan module, but by then
`scan_card_addr`/`scan_fast_axis` are already recorded; on success both are
recorded as well. -/
theorem setup_scan_faults_and_state (c : Ctrl) (fast slow : String)
    (pattern : Option Nat) (fid sid : Int) (fc sc : String × Nat)
    (hf : alookup (pyUpper fast) c.axis_to_card = some fc)
    (hs : alookup (pyUpper slow) c.axis_to_card = some sc) :
    (fc.1 ≠ sc.1 →
      setup_scan c fast slow pattern fid sid = (c, some scanCardMismatchFault)) ∧
    (∀ mods, fc.1 = sc.1 → alookup fc.1 c.card_modules = some mods →
      mods.contains "SCAN MODULE" = false →
      (setup_scan c fast slow pattern fid sid).2 =
        some (.runtimeError ("Error: card 0x" ++ fc.1 ++
          " cannot execute the specified command because it is missing the following firmware modules")) ∧
      (setup_scan c fast slow pattern fid sid).1.scan_card_addr = some fc.1 ∧
      (setup_scan c fast slow pattern fid sid).1.scan_fast_axis = some fast) ∧
    (∀ mods, fc.1 = sc.1 → alookup fc.1 c.card_modules = some mods →
      mods.contains "SCAN MODULE" = true →
      c.ordered_axes.contains (pyUpper fast) = true →
      c.ordered_axes.contains (pyUpper slow) = true →
      (setup_scan c fast slow pattern fid sid).2 = none ∧
      (setup_scan c fast slow pattern fid sid).1.scan_card_addr = some fc.1 ∧
      (setup_scan c fast slow pattern fid sid).1.scan_fast_axis = some fast) := by
  refine ⟨?_, ?_, ?_⟩
  · intro hne
    simp [setup_scan, hf, hs, hne]
  · intro mods heq hmods hmiss
    rw [heq] at hmods
    have hmem : "SCAN MODULE" ∉ mods := by simpa using hmiss
    simp [setup_scan, hf, hs, heq, has_firmware, hmods, hmem]
  · intro mods heq hmods hhave hfa hsa
    rw [heq] at hmods
    have hmem : "SCAN MODULE" ∈ mods := by simpa using hhave
    have hfa2 : pyUpper fast ∈ c.ordered_axes := by simpa using hfa
    have hsa2 : pyUpper slow ∈ c.ordered_axes := by simpa using hsa
    simp [setup_scan, hf, hs, heq, has_firmware, hmods, hmem, hfa2, hsa2,
      set_cmd_args_and_kwds]

/-- Closed instance of `setup_scan_faults_and_state` on the demo topology
(fast axis X, slow axis Y, both on card "31"). -/
theorem setup_scan_faults_and_state_witness :
    ((("31", 0) : String × Nat).1 ≠ (("31", 1) : String × Nat).1 →
      setup_scan demoCtrl "x" "y" (some 0) 6 7 = (demoCtrl, some scanCardMismatchFault)) ∧
    (∀ mods, (("31", 0) : String × Nat).1 = (("31", 1) : String × Nat).1 →
      alookup (("31", 0) : String × Nat).1 demoCtrl.card_modules = some mods →
      mods.contains "SCAN MODULE" = false →
      (setup_scan demoCtrl "x" "y" (some 0) 6 7).2 =
        some (.runtimeError ("Error: card 0x" ++ (("31", 0) : String × Nat).1 ++
          " cannot execute the specified command because it is missing the following firmware modules")) ∧
      (setup_scan demoCtrl "x" "y" (some 0) 6 7).1.scan_card_addr =
        some (("31", 0) : String × Nat).1 ∧
      (setup_scan demoCtrl "x" "y" (some 0) 6 7).1.scan_fast_axis = some "x") ∧
    (∀ mods, (("31", 0) : String × Nat).1 = (("31", 1) : String × Nat).1 →
      alookup (("31", 0) : String × Nat).1 demoCtrl.card_modules = some mods →
      mods.contains "SCAN MODULE" = true →
      demoCtrl.ordered_axes.contains (pyUpper "x") = true →
      demoCtrl.ordered_axes.contains (pyUpper "y") = true →
      (setup_scan demoCtrl "x" "y" (some 0) 6 7).2 = none ∧
      (setup_scan demoCtrl "x" "y" (some 0) 6 7).1.scan_card_addr =
        some (("31", 0) : String × Nat).1 ∧
      (setup_scan demoCtrl "x" "y" (some 0) 6 7).1.scan_fast_axis = some "x") :=
  setup_scan_faults_and_state demoCtrl "x" "y" (some 0) 6 7 ("31", 0) ("31", 1)
    (by decide) (by decide)

/-- C4: `scanr` with `scan_stop_mm` and `num_pixels` both given or both
omitted fails with the usage fault before any wire line is produced; a call
with exactly one of the two never produces that fault. -/
theorem scanr_xor_check (c : Ctrl) (start : String) (ticks : Int)
    (stop : Option String) (pix : Option Int) (retr : Option Int) :
    (stop.isNone = pix.isNone →
      scanr c start ticks stop pix retr = (c, some scanrXorFault)) ∧
    (stop.isNone ≠ pix.isNone →
      (scanr c start ticks stop pix retr).2 ≠ some scanrXorFault) := by
  constructor
  · intro h
    simp [scanr, h]
  · intro h
    simp only [scanr, if_neg h]
    match hc : c.scan_card_addr with
    | none => simp [scanSetupFault, scanrXorFault]
    | some addr => simp [set_cmd_args_and_kwds]

/-- Closed instance of `scanr_xor_check`: both omitted faults with the state
untouched; exactly one given does not produce the usage fault. -/
theorem scanr_xor_check_witness :
    scanr demoCtrl "0.0" 10 none none (some 67) = (demoCtrl, some scanrXorFault) ∧
    (scanr demoCtrl "0.0" 10 (some "1.0") none (some 67)).2 ≠ some scanrXorFault :=
  ⟨(scanr_xor_check demoCtrl "0.0" 10 none none (some 67)).1 (by decide),
   (scanr_xor_check demoCtrl "0.0" 10 (some "1.0") none (some 67)).2 (by decide)⟩

/-- C5: with no scan card address recorded, `scanr` (with a well-formed
stop/pixel choice), `scanv` and `start_scan` each raise the ordering fault
and leave the state unchanged; a successful `start_scan` clears both scan
session fields (issuing `SCAN S` to the recorded card), so the three calls
fault again afterwards. -/
theorem scan_ordering_faults (c : Ctrl) (start stop : String)
    (ticks lc pix : Int) (retr : Option Int) (h : c.scan_card_addr = none) :
    scanr c start ticks (some stop) none retr = (c, some scanSetupFault) ∧
    scanr c start ticks none (some pix) retr = (c, some scanSetupFault) ∧
    scanv c start stop lc none none = (c, some scanSetupFault) ∧
    start_scan c = (c, some scanSetupFault) ∧
    (∀ c2 : Ctrl, ∀ addr : String, c2.scan_card_addr = some addr →
      (start_scan c2).2 = none ∧
      (start_scan c2).1.scan_card_addr = none ∧
      (start_scan c2).1.scan_fast_axis = none ∧
      (start_scan c2).1.sent = c2.sent ++ [addr ++ "SCAN S\r"] ∧
      start_scan (start_scan c2).1 = ((start_scan c2).1, some scanSetupFault) ∧
      scanr (start_scan c2).1 start ticks (some stop) none retr =
        ((start_scan c2).1, some scanSetupFault) ∧
      scanv (start_scan c2).1 start stop lc none none =
        ((start_scan c2).1, some scanSetupFault)) := by
  refine ⟨by simp [scanr, h], by simp [scanr, h], by simp [scanv, h],
          by simp [start_scan, h], ?_⟩
  intro c2 addr h2
  have key : ∀ s : String,
      s ++ "SCAN" ++ String.join (["S"].map (fun a => " " ++ pyUpper a)) ++
        String.join (([] : List (String × String)).map
          (fun p => " " ++ pyUpper p.1 ++ "=" ++ p.2)) ++ "\r" = s ++ "SCAN S\r" := by
    intro s
    rw [String.append_assoc, String.append_assoc, String.append_assoc]
    congr 1
  have h1 : (start_scan c2).1.scan_card_addr = none := by
    simp [start_scan, h2, set_cmd_args_and_kwds]
  have hfx : (start_scan c2).1.scan_fast_axis = none := by
    simp [start_scan, h2, set_cmd_args_and_kwds]
  have h0 : (start_scan c2).2 = none := by
    simp [start_scan, h2, set_cmd_args_and_kwds]
  have hsent : (start_scan c2).1.sent = c2.sent ++ [addr ++ "SCAN S\r"] := by
    simp only [start_scan, h2, set_cmd_args_and_kwds]
    rw [key addr]
  refine ⟨h0, h1, hfx, hsent, ?_, ?_, ?_⟩
  · generalize hg : (start_scan c2).1 = s3
    rw [hg] at h1
    simp [start_scan, h1]
  · generalize hg : (start_scan c2).1 = s3
    rw [hg] at h1
    simp [scanr, h1]
  · generalize hg : (start_scan c2).1 = s3
    rw [hg] at h1
    simp [scanv, h1]

/-- Closed instance of `scan_ordering_faults` chained through a successful
`setup_scan` and `start_scan` on the demo topology. -/
theorem scan_ordering_faults_witness :
    scanr demoCtrl "0.0" 10 (some "1.0") none (some 67) =
      (demoCtrl, some scanSetupFault) ∧
    scanr demoCtrl "0.0" 10 none (some 512) (some 67) =
      (demoCtrl, some scanSetupFault) ∧
    scanv demoCtrl "0.0" "1.0" 100 none none = (demoCtrl, some scanSetupFault) ∧
    start_scan demoCtrl = (demoCtrl, some scanSetupFault) ∧
    (∀ c2 : Ctrl, ∀ addr : String, c2.scan_card_addr = some addr →
      (start_scan c2).2 = none ∧
      (start_scan c2).1.scan_card_addr = none ∧
      (start_scan c2).1.scan_fast_axis = none ∧
      (start_scan c2).1.sent = c2.sent ++ [addr ++ "SCAN S\r"] ∧
      start_scan (start_scan c2).1 = ((start_scan c2).1, some scanSetupFault) ∧
      scanr (start_scan c2).1 "0.0" 10 (some "1.0") none (some 67) =
        ((start_scan c2).1, some scanSetupFault) ∧
      scanv (start_scan c2).1 "0.0" "1.0" 100 none none =
        ((start_scan c2).1, some scanSetupFault)) :=
  scan_ordering_faults demoCtrl "0.0" "1.0" 10 100 512 (some 67) (by decide)

/-- C8: `setup_array_scan` without an explicit card address faults when the
X and Y axes live on different cards; an explicit card address skips the
inference (no ambiguity fault is possible) and the configuration is applied
against that card. -/
theorem setup_array_scan_card_inference (c : Ctrl) (xc yc : String × Nat)
    (xp yp : Int) (dx dy th : String) (xs ys : Option String) (pat : Option Nat)
    (hx : alookup "X" c.axis_to_card = some xc)
    (hy : alookup "Y" c.axis_to_card = some yc) :
    (xc.1 ≠ yc.1 →
      setup_array_scan c xp dx yp dy th xs ys pat none =
        (c, some arrayScanAmbiguousFault)) ∧
    (∀ addr : String,
      (setup_array_scan c xp dx yp dy th xs ys pat (some addr)).2 ≠
        some arrayScanAmbiguousFault ∧
      (setup_array_scan c xp dx yp dy th xs ys pat (some addr)).1.array_scan_card_addr =
        some addr) := by
  constructor
  · intro hne
    simp [setup_array_scan, hx, hy, hne]
  · intro addr
    have hmsg : ∀ a : String,
        ("Error: card 0x" ++ a ++
          " cannot execute the specified command because it is missing the following firmware modules" : String) ≠
        "Cannot infer the card address. It must bespecified explicitly." := by
      intro a hcontra
      have h2 := congrArg String.data hcontra
      simp only [String.data_append] at h2
      simp [String.data] at h2
    simp only [setup_array_scan, array_scan_proceed]
    match hfw : has_firmware { c with array_scan_card_addr := some addr } addr
        ["ARRAY MODULE"] with
    | some f =>
      simp only [hfw]
      refine ⟨?_, by simp⟩
      intro hcontra
      have hf2 : f = arrayScanAmbiguousFault := by simpa using hcontra
      subst hf2
      simp only [has_firmware] at hfw
      match hm : alookup addr c.card_modules with
      | none =>
        rw [hm] at hfw
        simp [arrayScanAmbiguousFault] at hfw
      | some mods =>
        rw [hm] at hfw
        dsimp only at hfw
        by_cases hlen : (["ARRAY MODULE"].filter
            (fun m => !mods.contains m)).length ≠ 0
        · rw [if_pos hlen] at hfw
          simp only [arrayScanAmbiguousFault, Option.some.injEq,
            Fault.runtimeError.injEq] at hfw
          exact hmsg addr hfw
        · rw [if_neg hlen] at hfw
          exact Option.noConfusion hfw
    | none =>
      simp only [hfw]
      match pat with
      | some p => simp [set_cmd_args_and_kwds]
      | none => simp [set_cmd_args_and_kwds]

/-- Closed instance of `setup_array_scan_card_inference` on a topology whose
X and Y axes live on different cards. -/
theorem setup_array_scan_card_inference_witness :
    ((("31", 0) : String × Nat).1 ≠ (("32", 0) : String × Nat).1 →
      setup_array_scan
        { demoCtrl with axis_to_card := [("X", ("31", 0)), ("Y", ("32", 0))] }
        8 "0.1" 8 "0.1" "0" none none (some 0) none =
      ({ demoCtrl with axis_to_card := [("X", ("31", 0)), ("Y", ("32", 0))] },
       some arrayScanAmbiguousFault)) ∧
    (∀ addr : String,
      (setup_array_scan
        { demoCtrl with axis_to_card := [("X", ("31", 0)), ("Y", ("32", 0))] }
        8 "0.1" 8 "0.1" "0" none none (some 0) (some addr)).2 ≠
          some arrayScanAmbiguousFault ∧
      (setup_array_scan
        { demoCtrl with axis_to_card := [("X", ("31", 0)), ("Y", ("32", 0))] }
        8 "0.1" 8 "0.1" "0" none none (some 0) (some addr)).1.array_scan_card_addr =
          some addr) :=
  setup_array_scan_card_inference
    { demoCtrl with axis_to_card := [("X", ("31", 0)), ("Y", ("32", 0))] }
    ("31", 0) ("32", 0) 8 8 "0.1" "0.1" "0" none none (some 0)
    (by decide) (by decide)

/-! ## Topology resolver (`_get_axis_to_card_mapping`, axis partition) -/

/-- Python `s.isnumeric()` for the ASCII axis names: nonempty and all
digits. -/
def pyIsNumeric (s : String) : Bool := !s.data.isEmpty && s.data.all Char.isDigit

/-- The loop of `_get_axis_to_card_mapping`: walk the zipped
`Motor Axes`/`Hex Addr` columns keeping a per-address running counter (a dict
update is modelled by consing, so `alookup` sees the current value). -/
def axisCardAux : List (String × String) → List (String × Nat) → List (String × String × Nat)
  | [], _ => []
  | (ax, addr) :: rest, counts =>
    let idx := (alookup addr counts).getD 0
    (ax, (addr, idx)) :: axisCardAux rest ((addr, idx + 1) :: counts)

/-- Model of `TigerController._get_axis_to_card_mapping` over the two parallel
build-configuration columns. -/
def get_axis_to_card_mapping (motor_axes hex_addr : List String) :
    List (String × String × Nat) :=
  axisCardAux (motor_axes.zip hex_addr) []

/-- From `__init__`: the filter-wheel list keeps exactly the numeric-named axes
of the build reply, in order. -/
def ordered_filter_wheels (motor_axes : List String) : List String :=
  motor_axes.filter (fun fw => pyIsNumeric fw)

/-- From `__init__`: the positional (lettered) axis list keeps exactly the
non-numeric-named axes, in order. -/
def lettered_axes (motor_axes : List String) : List String :=
  motor_axes.filter (fun ax => ! pyIsNumeric ax)

theorem axisCardAux_get :
    ∀ (pairs : List (String × String)) (counts : List (String × Nat)) (i : Nat)
      (ax addr : String), pairs[i]? = some (ax, addr) →
      (axisCardAux pairs counts)[i]? =
        some (ax, addr, (alookup addr counts).getD 0 +
          ((pairs.take i).filter (fun p => p.2 == addr)).length) := by
  intro pairs
  induction pairs with
  | nil => intro counts i ax addr h; simp at h
  | cons hd rest ih =>
    intro counts i ax addr h
    match hd with
    | (a, d) =>
      match i with
      | 0 =>
        simp only [List.getElem?_cons_zero, Option.some.injEq, Prod.mk.injEq] at h
        obtain ⟨rfl, rfl⟩ := h
        simp [axisCardAux]
      | n + 1 =>
        simp only [List.getElem?_cons_succ] at h
        simp only [axisCardAux, List.getElem?_cons_succ]
        rw [ih ((d, (alookup d counts).getD 0 + 1) :: counts) n ax addr h]
        simp only [Option.some.injEq, Prod.mk.injEq, true_and]
        by_cases hda : addr = d
        · subst hda
          simp only [alookup, if_pos rfl, List.take_succ_cons, List.filter_cons]
          simp [Option.getD]
          omega
        · have hda2 : (d == addr) = false := by
            simp only [beq_eq_false_iff_ne, ne_eq]
            intro hc
            exact hda hc.symm
          simp only [alookup, if_neg hda, List.take_succ_cons, List.filter_cons, hda2]
          simp

/-- C6: in the resolved axis-to-card mapping the entry at hardware position
`i` carries that axis, its card address, and a card index equal to the number
of earlier axes on the same card (so the j-th axis listed on a card gets
index j); the filter-wheel list keeps exactly the numeric-named axes and the
lettered list exactly the others, both as order-preserving sublists. -/
theorem topology_card_index_and_partition (motor_axes hex_addr : List String)
    (i : Nat) (ax addr : String)
    (h : (motor_axes.zip hex_addr)[i]? = some (ax, addr)) :
    (get_axis_to_card_mapping motor_axes hex_addr)[i]? =
      some (ax, addr,
        (((motor_axes.zip hex_addr).take i).filter (fun p => p.2 == addr)).length) ∧
    (∀ a, a ∈ ordered_filter_wheels motor_axes ↔
      a ∈ motor_axes ∧ pyIsNumeric a = true) ∧
    (∀ a, a ∈ lettered_axes motor_axes ↔ a ∈ motor_axes ∧ pyIsNumeric a = false) ∧
    (ordered_filter_wheels motor_axes).Sublist motor_axes ∧
    (lettered_axes motor_axes).Sublist motor_axes := by
  refine ⟨?_, ?_, ?_, List.filter_sublist _, List.filter_sublist _⟩
  · have := axisCardAux_get (motor_axes.zip hex_addr) [] i ax addr h
    simpa [get_axis_to_card_mapping, alookup] using this
  · intro a
    simp [ordered_filter_wheels, List.mem_filter]
  · intro a
    simp [lettered_axes, List.mem_filter]

/-- Closed instance of `topology_card_index_and_partition`: the fourth axis
`"0"` is the third axis listed on card "31", so its card index is 2. -/
theorem topology_card_index_and_partition_witness :
    ((get_axis_to_card_mapping ["X", "Y", "Z", "0"] ["31", "31", "32", "31"])[3]? =
      some ("0", "31",
        (((["X", "Y", "Z", "0"].zip ["31", "31", "32", "31"]).take 3).filter
          (fun p => p.2 == "31")).length)) ∧
    (∀ a, a ∈ ordered_filter_wheels ["X", "Y", "Z", "0"] ↔
      a ∈ ["X", "Y", "Z", "0"] ∧ pyIsNumeric a = true) ∧
    (∀ a, a ∈ lettered_axes ["X", "Y", "Z", "0"] ↔
      a ∈ ["X", "Y", "Z", "0"] ∧ pyIsNumeric a = false) ∧
    (ordered_filter_wheels ["X", "Y", "Z", "0"]).Sublist ["X", "Y", "Z", "0"] ∧
    (lettered_axes ["X", "Y", "Z", "0"]).Sublist ["X", "Y", "Z", "0"] :=
  topology_card_index_and_partition ["X", "Y", "Z", "0"] ["31", "31", "32", "31"]
    3 "0" "31" (by decide)

/-! ## get_position (`WHERE` query) -/

/-- Python `str.split()` with no separator: whitespace-delimited tokens with
empty tokens discarded. -/
def pySplitWS (s : String) : List String :=
  ((s.data.splitOnP Char.isWhitespace).map (fun l => (⟨l⟩ : String))).filter
    (fun t => t ≠ "")

/-- Model of `TigerController.get_position` with the device reply as input: the
`axis_check` decorator upper-cases and validates the requested axes; the
request is re-ordered to hardware order (`_order_axes`), defaulting to all
lettered axes when none were given; the `W` query line is produced; the
whitespace-split reply (first token, the acknowledgement, dropped) is zipped
against the hardware-ordered axis list.  Token-to-float conversion is
value-preserving tokenwise and left as the token string. -/
def get_position (c : Ctrl) (axes0 : List String) (reply : String) :
    Except Fault (Ctrl × List (String × String)) :=
  let axes := axes0.map pyUpper
  if axes.all (fun a => c.ordered_axes.contains a) then
    let ordered := c.ordered_axes.filter (fun ax => axes.contains ax)
    let axes1 := if ordered.isEmpty then
        c.ordered_axes.filter (fun ax => ! pyIsNumeric ax)
      else ordered
    let cmd_str := "W" ++ String.join (axes1.map (fun ax => " " ++ pyUpper ax)) ++ "\r"
    let axes_positions := (pySplitWS reply).drop 1
    .ok ({ c with sent := c.sent ++ [cmd_str] }, axes1.zip axes_positions)
  else .error (.assertionError "Error. Axis does not exist")

/-- C7: `get_position` on any nonempty duplicate-free subset of the known
lettered axes succeeds, keys its result by the upper-cased requested axes
re-ordered to hardware order (an order-preserving sublist of the hardware
axis list, a permutation of the upper-cased request), consumes the reply
values in that hardware order, and is invariant under permuting the
requested axes. -/
theorem get_position_hardware_order (c : Ctrl) (axes axes2 : List String)
    (reply : String)
    (hmem : ∀ a ∈ axes, c.ordered_axes.contains (pyUpper a) = true)
    (hne : axes ≠ [])
    (hperm : (axes2.map pyUpper).Perm (axes.map pyUpper))
    (hnd : c.ordered_axes.Nodup) (hnd2 : (axes.map pyUpper).Nodup) :
    get_position c axes2 reply = get_position c axes reply ∧
    get_position c axes reply =
      .ok ({ c with sent := c.sent ++ ["W" ++ String.join
          ((c.ordered_axes.filter (fun ax => (axes.map pyUpper).contains ax)).map
            (fun ax => " " ++ pyUpper ax)) ++ "\r"] },
        (c.ordered_axes.filter (fun ax => (axes.map pyUpper).contains ax)).zip
          ((pySplitWS reply).drop 1)) ∧
    (c.ordered_axes.filter (fun ax => (axes.map pyUpper).contains ax)).Sublist
      c.ordered_axes ∧
    (c.ordered_axes.filter (fun ax => (axes.map pyUpper).contains ax)).Perm
      (axes.map pyUpper) := by
  have hmemU : ∀ u ∈ axes.map pyUpper, u ∈ c.ordered_axes := by
    intro u hu
    obtain ⟨a, ha, rfl⟩ := List.mem_map.mp hu
    exact List.elem_iff.mp (hmem a ha)
  have hmemU2 : ∀ u ∈ axes2.map pyUpper, u ∈ c.ordered_axes := by
    intro u hu
    exact hmemU u (hperm.mem_iff.mp hu)
  have hall : (axes.map pyUpper).all (fun a => c.ordered_axes.contains a) = true := by
    rw [List.all_eq_true]
    intro u hu
    exact List.elem_iff.mpr (hmemU u hu)
  have hall2 : (axes2.map pyUpper).all (fun a => c.ordered_axes.contains a) = true := by
    rw [List.all_eq_true]
    intro u hu
    exact List.elem_iff.mpr (hmemU2 u hu)
  have hfc : c.ordered_axes.filter (fun ax => (axes2.map pyUpper).contains ax) =
      c.ordered_axes.filter (fun ax => (axes.map pyUpper).contains ax) := by
    apply List.filter_congr
    intro ax _
    by_cases hin : ax ∈ axes.map pyUpper
    · have t1 : (axes.map pyUpper).contains ax = true := by
        simpa using hin
      have t2 : (axes2.map pyUpper).contains ax = true := by
        simpa using hperm.mem_iff.mpr hin
      rw [t1, t2]
    · have hin2 : ax ∉ axes2.map pyUpper := fun hc => hin (hperm.mem_iff.mp hc)
      have e1 : (axes.map pyUpper).contains ax = false := by
        simp [hin]
      have e2 : (axes2.map pyUpper).contains ax = false := by
        simp [hin2]
      rw [e1, e2]
  have hordne : (c.ordered_axes.filter
      (fun ax => (axes.map pyUpper).contains ax)).isEmpty = false := by
    apply List.isEmpty_eq_false.mpr
    match axes, hne with
    | a :: rest, _ =>
      intro hcontra
      have hmf : pyUpper a ∈ c.ordered_axes.filter
          (fun ax => ((a :: rest).map pyUpper).contains ax) := by
        rw [List.mem_filter]
        refine ⟨hmemU (pyUpper a) (by simp), ?_⟩
        exact List.elem_iff.mpr (by simp)
      rw [hcontra] at hmf
      simp at hmf
  have hordne2 : (c.ordered_axes.filter
      (fun ax => (axes2.map pyUpper).contains ax)).isEmpty = false := by
    rw [hfc]
    exact hordne
  refine ⟨?_, ?_, List.filter_sublist _, ?_⟩
  · simp only [get_position, hall, hall2, if_true, hfc, hordne, hordne2]
  · simp only [get_position, hall, if_true, hordne]
    simp
  · apply (List.perm_ext_iff_of_nodup (hnd.filter _) hnd2).mpr
    intro x
    rw [List.mem_filter]
    constructor
    · intro hx
      exact List.elem_iff.mp hx.2
    · intro hx
      exact ⟨hmemU x hx, List.elem_iff.mpr hx⟩

/-- Closed instance of `get_position_hardware_order`: hardware order
X, Y, Z, W; the requests `z, x` and `x, z` decode the two reply values
identically, pairing X with the first value and Z with the second. -/
theorem get_position_hardware_order_witness :
    get_position demoCtrl ["x", "z"] ":A 10.5 20.5\r\n" =
      get_position demoCtrl ["z", "x"] ":A 10.5 20.5\r\n" ∧
    get_position demoCtrl ["z", "x"] ":A 10.5 20.5\r\n" =
      .ok ({ demoCtrl with sent := demoCtrl.sent ++ ["W" ++ String.join
          ((demoCtrl.ordered_axes.filter
            (fun ax => (["z", "x"].map pyUpper).contains ax)).map
              (fun ax => " " ++ pyUpper ax)) ++ "\r"] },
        (demoCtrl.ordered_axes.filter
          (fun ax => (["z", "x"].map pyUpper).contains ax)).zip
            ((pySplitWS ":A 10.5 20.5\r\n").drop 1)) ∧
    (demoCtrl.ordered_axes.filter
      (fun ax => (["z", "x"].map pyUpper).contains ax)).Sublist
        demoCtrl.ordered_axes ∧
    (demoCtrl.ordered_axes.filter
      (fun ax => (["z", "x"].map pyUpper).contains ax)).Perm
        (["z", "x"].map pyUpper) :=
  get_position_hardware_order demoCtrl ["z", "x"] ["x", "z"] ":A 10.5 20.5\r\n"
    (by decide) (by decide) (by decide) (by decide) (by decide)

/-! ## Home and travel-limit setters (`set_home`, `set_lower_travel_limit`,
`set_upper_travel_limit`)

Each runs the `axis_check` decorator (upper-case and validate every axis
name, positional flags shadowed by a keyword are skipped) followed by the
`no_repeated_axis_check` decorator (an axis given both positionally and by
keyword is a usage fault).  Keyword values are the already-formatted numeric
strings (the source rounds limits to 4 decimal places first). -/

/-- The two decorator checks shared by the three setters: `none` when both
pass. -/
def home_limit_checks (c : Ctrl) (axes : List String)
    (kwd_axes : List (String × String)) : Option Fault :=
  let kwd_names := kwd_axes.map Prod.fst
  if ! ((axes.filter (fun a => ! kwd_names.contains a)) ++ kwd_names).all
      (fun a => c.ordered_axes.contains a) then
    some (.assertionError "Error. Axis does not exist")
  else if ! (axes.filter (fun a => kwd_names.contains a)).isEmpty then
    some (.usageError "The following axes cannot be specified both at the current position and at a specific position")
  else none

/-- Model of `TigerController.set_home`: the source builds a list of
plus-suffixed flags into a local variable named args and then passes the
unsuffixed axes to the encoder, so the computed plus flags never reach the
wire line. -/
def set_home (c : Ctrl) (axes0 : List String) (kwd_axes0 : List (String × String)) :
    Ctrl × Option Fault :=
  let axes := axes0.map pyUpper
  let kwd_axes := kwd_axes0.map (fun p => (pyUpper p.1, p.2))
  match home_limit_checks c axes kwd_axes with
  | some f => (c, some f)
  | none => (set_cmd_args_and_kwds c "HM" axes kwd_axes none, none)

/-- Model of `TigerController.set_lower_travel_limit`: positional axes are rebound to
their `+`-suffixed form before encoding. -/
def set_lower_travel_limit (c : Ctrl) (axes0 : List String)
    (kwd_axes0 : List (String × String)) : Ctrl × Option Fault :=
  let axes := axes0.map pyUpper
  let kwd_axes := kwd_axes0.map (fun p => (pyUpper p.1, p.2))
  match home_limit_checks c axes kwd_axes with
  | some f => (c, some f)
  | none =>
    let axes1 := axes.map (fun ax => ax ++ "+")
    (set_cmd_args_and_kwds c "SL" axes1 kwd_axes none, none)

/-- Model of `TigerController.set_upper_travel_limit`: same shape as the lower-limit
setter, command keyword `SU`. -/
def set_upper_travel_limit (c : Ctrl) (axes0 : List String)
    (kwd_axes0 : List (String × String)) : Ctrl × Option Fault :=
  let axes := axes0.map pyUpper
  let kwd_axes := kwd_axes0.map (fun p => (pyUpper p.1, p.2))
  match home_limit_checks c axes kwd_axes with
  | some f => (c, some f)
  | none =>
    let axes1 := axes.map (fun ax => ax ++ "+")
    (set_cmd_args_and_kwds c "SU" axes1 kwd_axes none, none)

/-- C9: at the failing input `set_home("x")` the wire line is `HM X\r` with
no `+` suffix (the source builds the suffixed flags into a dead variable),
while the travel-limit setters do suffix positionally-passed axes with `+`
and all three encode keyword-passed axes as `NAME=value`. -/
theorem set_home_plus_suffix_divergence :
    (set_home demoCtrl ["x"] []).1.sent = ["HM X\r"] ∧
    (set_home demoCtrl ["x"] []).2 = none ∧
    (set_lower_travel_limit demoCtrl ["x"] []).1.sent = ["SL X+\r"] ∧
    (set_upper_travel_limit demoCtrl ["x"] []).1.sent = ["SU X+\r"] ∧
    (set_home demoCtrl [] [("y", "5.5")]).1.sent = ["HM Y=5.5\r"] ∧
    (set_lower_travel_limit demoCtrl ["x"] [("y", "5.5")]).1.sent =
      ["SL X+ Y=5.5\r"] ∧
    (set_upper_travel_limit demoCtrl ["x"] [("y", "5.5")]).1.sent =
      ["SU X+ Y=5.5\r"] := by
  decide

/-! ## Ring-buffer setup (`setup_ring_buffer`) -/

/-- Python `list.index`: position of the first occurrence, `none` for the
`ValueError` case. -/
def pyIndexOf (x : String) : List String → Option Nat
  | [] => none
  | a :: rest => if a = x then some 0 else (pyIndexOf x rest).map (· + 1)

/-- The accumulation loop of `setup_ring_buffer`: OR together
`1 <<< index(axis)` over the axes, in hardware order indices. -/
def rbAxisByteLoop (ordered : List String) (axis_byte : Nat) :
    List String → Option Nat
  | [] => some axis_byte
  | ax :: rest =>
    match pyIndexOf ax ordered with
    | some offset => rbAxisByteLoop ordered (axis_byte ||| (1 <<< offset)) rest
    | none => none

/-- Model of `TigerController.setup_ring_buffer`: validate the axes, build the OR
mask of hardware-order bit offsets, truncate it with `& 0xFFFF`, record the
axis set in `_rb_axes`, and issue one `RM` line with `X=0` (clearing the
buffer), the masked `Y` byte and the `F` mode. -/
def setup_ring_buffer (c : Ctrl) (axes0 : List String) (mode : Nat) :
    Ctrl × Option Fault :=
  let axes := axes0.map pyUpper
  if ! axes.all (fun a => c.ordered_axes.contains a) then
    (c, some (.assertionError "Error. Axis does not exist"))
  else
    match rbAxisByteLoop c.ordered_axes 0 axes with
    | none => (c, some (.valueError "x not in list"))
    | some b =>
      let axis_byte := b &&& 0xFFFF
      let c1 := { c with rb_axes := axes }
      (set_cmd_args_and_kwds c1 "RM" []
        [("X", "0"), ("Y", toString axis_byte), ("F", toString mode)] none, none)

theorem pyIndexOf_of_mem (x : String) : ∀ l : List String, x ∈ l →
    ∃ j, pyIndexOf x l = some j := by
  intro l
  induction l with
  | nil => intro h; simp at h
  | cons a rest ih =>
    intro h
    by_cases hax : a = x
    · exact ⟨0, by simp [pyIndexOf, hax]⟩
    · have hm : x ∈ rest := by
        rcases List.mem_cons.mp h with h1 | h1
        · exact absurd h1.symm hax
        · exact h1
      obtain ⟨j, hj⟩ := ih hm
      exact ⟨j + 1, by simp [pyIndexOf, hax, hj]⟩

theorem rbAxisByteLoop_bits (ordered : List String) :
    ∀ (axes : List String) (acc : Nat),
    (∀ a ∈ axes, ∃ j, pyIndexOf a ordered = some j) →
    ∃ b, rbAxisByteLoop ordered acc axes = some b ∧
      ∀ i, b.testBit i = true ↔
        (acc.testBit i = true ∨ ∃ a ∈ axes, pyIndexOf a ordered = some i) := by
  intro axes
  induction axes with
  | nil =>
    intro acc _
    exact ⟨acc, rfl, by simp⟩
  | cons ax rest ih =>
    intro acc hall
    obtain ⟨off, hoff⟩ := hall ax (by simp)
    obtain ⟨b, hb, hbits⟩ := ih (acc ||| (1 <<< off))
      (fun a ha => hall a (by simp [ha]))
    refine ⟨b, by simp [rbAxisByteLoop, hoff, hb], ?_⟩
    intro i
    rw [hbits i]
    have hshift : (1 <<< off : Nat) = 2 ^ off := by
      rw [Nat.shiftLeft_eq, one_mul]
    rw [Nat.testBit_or, hshift, Nat.testBit_two_pow]
    constructor
    · intro h
      rcases h with h | h
      · rcases Bool.or_eq_true_iff.mp h with h1 | h1
        · exact Or.inl h1
        · refine Or.inr ⟨ax, by simp, ?_⟩
          rw [hoff]
          exact congrArg some (of_decide_eq_true h1)
      · obtain ⟨a, ha, hia⟩ := h
        exact Or.inr ⟨a, by simp [ha], hia⟩
    · intro h
      rcases h with h | h
      · exact Or.inl (Bool.or_eq_true_iff.mpr (Or.inl h))
      · obtain ⟨a, ha, hia⟩ := h
        rcases List.mem_cons.mp ha with h1 | h1
        · subst h1
          rw [hoff] at hia
          left
          apply Bool.or_eq_true_iff.mpr
          right
          exact decide_eq_true (Option.some.inj hia)
        · exact Or.inr ⟨a, h1, hia⟩

/-- C10: `setup_ring_buffer` sends a single `RM` command whose `X` parameter
is always `0` (clearing queued buffer contents) and whose `Y` parameter is
the OR of `1 <<< index` over the requested axes masked with `0xFFFF`; the
masked byte has a bit set exactly for requested hardware-order indices below
16 (an axis with index 16 or more contributes nothing), while the session
ring-buffer axis set records every requested axis. -/
theorem setup_ring_buffer_mask (c : Ctrl) (axes : List String) (mode : Nat)
    (hmem : ∀ a ∈ axes, c.ordered_axes.contains (pyUpper a) = true) :
    ∃ b, rbAxisByteLoop c.ordered_axes 0 (axes.map pyUpper) = some b ∧
      setup_ring_buffer c axes mode =
        (set_cmd_args_and_kwds { c with rb_axes := axes.map pyUpper } "RM" []
          [("X", "0"), ("Y", toString (b &&& 0xFFFF)), ("F", toString mode)] none,
         none) ∧
      (∀ i, (b &&& 0xFFFF).testBit i = true ↔
        (i < 16 ∧ ∃ a ∈ axes, pyIndexOf (pyUpper a) c.ordered_axes = some i)) := by
  have hidx : ∀ u ∈ axes.map pyUpper, ∃ j, pyIndexOf u c.ordered_axes = some j := by
    intro u hu
    obtain ⟨a, ha, rfl⟩ := List.mem_map.mp hu
    exact pyIndexOf_of_mem (pyUpper a) c.ordered_axes (List.elem_iff.mp (hmem a ha))
  obtain ⟨b, hb, hbits⟩ := rbAxisByteLoop_bits c.ordered_axes (axes.map pyUpper) 0 hidx
  have hall : (axes.map pyUpper).all (fun a => c.ordered_axes.contains a) = true := by
    rw [List.all_eq_true]
    intro u hu
    obtain ⟨a, ha, rfl⟩ := List.mem_map.mp hu
    exact hmem a ha
  refine ⟨b, hb, ?_, ?_⟩
  · simp [setup_ring_buffer, hall, hb]
    intro x hx
    exact List.elem_iff.mp (hmem x hx)
  · intro i
    rw [Nat.testBit_and, show (0xFFFF : Nat) = 2 ^ 16 - 1 from by norm_num,
      Nat.testBit_two_pow_sub_one]
    rw [Bool.and_eq_true, hbits i]
    simp only [Nat.zero_testBit, Bool.false_eq_true, false_or,
      decide_eq_true_eq, List.mem_map]
    constructor
    · rintro ⟨⟨a, ⟨a0, ha0, rfl⟩, hia⟩, hlt⟩
      exact ⟨hlt, a0, ha0, hia⟩
    · rintro ⟨hlt, a0, ha0, hia⟩
      exact ⟨⟨pyUpper a0, ⟨a0, ha0, rfl⟩, hia⟩, hlt⟩

/-- Closed instance of `setup_ring_buffer_mask` on the demo topology. -/
theorem setup_ring_buffer_mask_witness :
    ∃ b, rbAxisByteLoop demoCtrl.ordered_axes 0 (["x", "z"].map pyUpper) = some b ∧
      setup_ring_buffer demoCtrl ["x", "z"] 1 =
        (set_cmd_args_and_kwds { demoCtrl with rb_axes := ["x", "z"].map pyUpper }
          "RM" [] [("X", "0"), ("Y", toString (b &&& 0xFFFF)), ("F", toString 1)]
          none, none) ∧
      (∀ i, (b &&& 0xFFFF).testBit i = true ↔
        (i < 16 ∧ ∃ a ∈ ["x", "z"], pyIndexOf (pyUpper a) demoCtrl.ordered_axes =
          some i)) :=
  setup_ring_buffer_mask demoCtrl ["x", "z"] 1 (by decide)

end TigerASI
